import Mathlib

/-! Shallow embedding of `backend/sandbox/sandbox.py` from the suna repository.

The module under verification is a thin adapter over two external
dependencies: the Daytona sandbox-provisioning client and a project record
store.  We embed those dependencies as an explicit environment of fallible
operations (`Env`).  Each embedded function additionally returns the list of
external calls it performed (an `Event` trace), so that properties about
which calls are made, in which order, and how failures propagate can be
stated and proved.  Exceptions are modelled by `Except Err`; Python's
`raise e` re-raising inside `except` blocks is the identity on the error
value, so the embedding returns the underlying error unchanged. -/

namespace SandboxSpec

/-- Lifecycle state of a remote sandbox handle.  The source only ever
distinguishes `STOPPED` and `ARCHIVED` from everything else; following the
spec's data model, all remaining provider states are represented by
`active` and `unknown`. -/
inductive WorkspaceState where
  | active
  | stopped
  | archived
  | unknown
  deriving DecidableEq, Repr

/-- The `instance` attribute of a Daytona sandbox, carrying its state
(`sandbox.instance.state` in the source; `instance` is a Lean keyword, so
the field is named `inst`). -/
structure SandboxInstance where
  state : WorkspaceState
  deriving DecidableEq, Repr

/-- Opaque remote sandbox handle, as used by the source: an id and an
instance descriptor holding the lifecycle state. -/
structure Sandbox where
  id : String
  inst : SandboxInstance
  deriving DecidableEq, Repr

/-- `SessionExecuteRequest` from the Daytona SDK: a command string and the
`var_async` fire-and-forget flag. -/
structure SessionExecuteRequest where
  command : String
  var_async : Bool
  deriving DecidableEq, Repr

/-- Resource request of `CreateSandboxParams` (`cpu`, `memory`, `disk`). -/
structure Resources where
  cpu : Nat
  memory : Nat
  disk : Nat
  deriving DecidableEq, Repr

/-- `CreateSandboxParams` from the Daytona SDK, with the fields the source
populates. -/
structure CreateSandboxParams where
  image : String
  public : Bool
  labels : Option (List (String × String))
  env_vars : List (String × String)
  ports : List Nat
  resources : Resources
  deriving DecidableEq, Repr

/-- Errors: Python `ValueError` and `RuntimeError` raised by this module,
and opaque failures raised by the external provider or store (identified
by a payload so that "propagated unchanged" is meaningful). -/
inductive Err where
  | valueError (msg : String)
  | runtimeError (msg : String)
  | providerError (code : Nat)
  deriving DecidableEq, Repr

/-- The `sandbox` descriptor embedded in a project record
(`project_data['sandbox']`): its `id` and `pass` entries, each possibly
absent. -/
structure SandboxInfo where
  id : Option String
  pass : Option String
  deriving DecidableEq, Repr

/-- A row of the `projects` table: the project id and the embedded sandbox
descriptor (`none` when the `sandbox` key is absent, in which case the
source falls back to an empty dict). -/
structure ProjectRecord where
  project_id : String
  sandbox : Option SandboxInfo
  deriving DecidableEq, Repr

/-- The empty-dict default for a missing `sandbox` key
(`project_data.get('sandbox', \x7b\x7d)`). -/
def emptySandboxInfo : SandboxInfo := ⟨none, none⟩

/-- One external call performed by the module.  `getCurrentSandbox` carries
the occurrence index of the fetch inside a single invocation (0 for the
initial fetch, 1 for the re-fetch after a start request), matching the two
distinct call sites in the source. -/
inductive Event where
  | getCurrentSandbox (sandbox_id : String) (fetchIdx : Nat)
  | startSandbox (sandbox : Sandbox)
  | createSession (sandbox : Sandbox) (session_id : String)
  | executeSessionCommand (sandbox : Sandbox) (session_id : String)
      (request : SessionExecuteRequest)
  | createSandboxReq (params : CreateSandboxParams)
  | queryProjects (project_id : String)
  | getPreviewLink (sandbox : Sandbox) (port : Nat)
  | printUrls (vnc : String) (website : String)
  deriving DecidableEq, Repr

/-- The external world: the Daytona client operations and the project store
read used by the module.  Every operation may fail with an `Err`.  The
`Nat` argument of `get_current_sandbox` is the occurrence index of the
fetch within one invocation, letting the environment return a different
handle for the re-fetch after a start request. -/
structure Env where
  get_current_sandbox : String → Nat → Except Err Sandbox
  start : Sandbox → Except Err Unit
  create_session : Sandbox → String → Except Err Unit
  execute_session_command : Sandbox → String → SessionExecuteRequest → Except Err Unit
  create : CreateSandboxParams → Except Err Sandbox
  query_projects : String → Except Err (List ProjectRecord)
  get_preview_link : Sandbox → Nat → Except Err String

/-- The fixed supervisord launch command issued by
`start_supervisord_session`. -/
def supervisordCommand : String :=
  "exec /usr/bin/supervisord -n -c /etc/supervisor/conf.d/supervisord.conf"

/-- The fixed session name used by `start_supervisord_session`. -/
def supervisordSessionId : String := "supervisord-session"

/-- Embedding of `start_supervisord_session`: create the named session on
the handle, then issue the supervisord command with `var_async=True`.
Failures of either external call are logged and re-raised, i.e. returned
unchanged. -/
def start_supervisord_session (env : Env) (sandbox : Sandbox) :
    Except Err Unit × List Event :=
  let session_id := supervisordSessionId
  match env.create_session sandbox session_id with
  | .error e => (.error e, [.createSession sandbox session_id])
  | .ok _ =>
    let request : SessionExecuteRequest := ⟨supervisordCommand, true⟩
    match env.execute_session_command sandbox session_id request with
    | .error e =>
        (.error e,
          [.createSession sandbox session_id,
           .executeSessionCommand sandbox session_id request])
    | .ok _ =>
        (.ok (),
          [.createSession sandbox session_id,
           .executeSessionCommand sandbox session_id request])

/-- The provisioning check of `get_or_start_sandbox`:
`sandbox.instance.state in (WorkspaceState.ARCHIVED, WorkspaceState.STOPPED)`. -/
def needsStart (sandbox : Sandbox) : Bool :=
  match sandbox.inst.state with
  | .archived => true
  | .stopped => true
  | _ => false

/-- Embedding of `get_or_start_sandbox`: fetch the current handle; if its
state is archived or stopped, issue a start request, re-fetch, and start
the supervisord session on the re-fetched handle; return the resulting
handle.  Every failure (of the fetch, the start, the re-fetch, or the
session setup) is logged and re-raised, i.e. returned unchanged. -/
def get_or_start_sandbox (env : Env) (sandbox_id : String) :
    Except Err Sandbox × List Event :=
  match env.get_current_sandbox sandbox_id 0 with
  | .error e => (.error e, [.getCurrentSandbox sandbox_id 0])
  | .ok sandbox =>
    if needsStart sandbox then
      match env.start sandbox with
      | .error e =>
          (.error e, [.getCurrentSandbox sandbox_id 0, .startSandbox sandbox])
      | .ok _ =>
        match env.get_current_sandbox sandbox_id 1 with
        | .error e =>
            (.error e,
              [.getCurrentSandbox sandbox_id 0, .startSandbox sandbox,
               .getCurrentSandbox sandbox_id 1])
        | .ok sandbox2 =>
          match start_supervisord_session env sandbox2 with
          | (.error e, tr) =>
              (.error e,
                .getCurrentSandbox sandbox_id 0 :: .startSandbox sandbox ::
                  .getCurrentSandbox sandbox_id 1 :: tr)
          | (.ok _, tr) =>
              (.ok sandbox2,
                .getCurrentSandbox sandbox_id 0 :: .startSandbox sandbox ::
                  .getCurrentSandbox sandbox_id 1 :: tr)
    else
      (.ok sandbox, [.getCurrentSandbox sandbox_id 0])

/-- The fixed environment variables passed by `create_sandbox`. -/
def sandboxEnvVars (password : String) : List (String × String) :=
  [("CHROME_PERSISTENT_SESSION", "true"),
   ("RESOLUTION", "1024x768x24"),
   ("RESOLUTION_WIDTH", "1024"),
   ("RESOLUTION_HEIGHT", "768"),
   ("VNC_PASSWORD", password),
   ("ANONYMIZED_TELEMETRY", "false"),
   ("CHROME_PATH", ""),
   ("CHROME_USER_DATA", ""),
   ("CHROME_DEBUGGING_PORT", "9222"),
   ("CHROME_DEBUGGING_HOST", "localhost"),
   ("CHROME_CDP", "")]

/-- The `CreateSandboxParams` built by `create_sandbox`.  The labels dict is
`\x7b'id': sandbox_id\x7d if sandbox_id else None`; Python truthiness makes
both `None` and the empty string fall to `None`. -/
def createParams (password : String) (sandbox_id : Option String) :
    CreateSandboxParams :=
  { image := "adamcohenhillel/kortix-suna:0.0.20"
    public := true
    labels :=
      match sandbox_id with
      | some sid => if sid = "" then none else some [("id", sid)]
      | none => none
    env_vars := sandboxEnvVars password
    ports := [6080, 5900, 5901, 9222, 8080, 8002]
    resources := ⟨2, 4, 5⟩ }

/-- Embedding of `create_sandbox`: request a new sandbox with the fixed
configuration, then start the supervisord session on the created handle
before returning it.  Neither external call is guarded, so failures
propagate unchanged. -/
def create_sandbox (env : Env) (password : String) (sandbox_id : Option String) :
    Except Err Sandbox × List Event :=
  let params := createParams password sandbox_id
  match env.create params with
  | .error e => (.error e, [.createSandboxReq params])
  | .ok sandbox =>
    match start_supervisord_session env sandbox with
    | (.error e, tr) => (.error e, .createSandboxReq params :: tr)
    | (.ok _, tr) => (.ok sandbox, .createSandboxReq params :: tr)

/-- The class-level state of `SandboxToolsBase`: the `_urls_printed` flag
shared by all instances of the process. -/
structure GlobalState where
  urls_printed : Bool
  deriving DecidableEq, Repr

/-- The class attribute initializer `_urls_printed = False`. -/
def initGlobal : GlobalState := ⟨false⟩

/-- The per-instance state of a `SandboxToolsBase` object: the project id
and the lazily resolved sandbox handle, id and credential. -/
structure ToolState where
  project_id : String
  workspace_path : String
  _sandbox : Option Sandbox
  _sandbox_id : Option String
  _sandbox_pass : Option String
  deriving DecidableEq, Repr

/-- The result of one `_ensure_sandbox` call: the raised-or-returned value,
the instance state and class state after the call, and the trace of
external calls performed. -/
structure EnsureResult where
  result : Except Err Sandbox
  state : ToolState
  globalState : GlobalState
  trace : List Event
  deriving Repr

namespace SandboxToolsBase

/-- Embedding of `SandboxToolsBase.__init__`: a fresh, unresolved
instance. -/
def init (project_id : String) : ToolState :=
  ⟨project_id, "/workspace", none, none, none⟩

/-- Embedding of `SandboxToolsBase._ensure_sandbox`.  If a handle is
cached, return it without any external call.  Otherwise query the project
store; a missing record or a falsy sandbox id raises a `ValueError`.  The
id and credential are written to the instance before resolution, then
`get_or_start_sandbox` resolves the handle; on the first success per
process the preview links are fetched and printed and `_urls_printed` is
set.  Every failure is logged and re-raised unchanged. -/
def _ensure_sandbox (env : Env) (g : GlobalState) (st : ToolState) :
    EnsureResult :=
  match st._sandbox with
  | some sandbox => ⟨.ok sandbox, st, g, []⟩
  | none =>
    match env.query_projects st.project_id with
    | .error e => ⟨.error e, st, g, [.queryProjects st.project_id]⟩
    | .ok [] =>
        ⟨.error (.valueError ("Project " ++ st.project_id ++ " not found")),
          st, g, [.queryProjects st.project_id]⟩
    | .ok (project_data :: _) =>
      let sandbox_info := project_data.sandbox.getD emptySandboxInfo
      match sandbox_info.id with
      | none =>
          ⟨.error (.valueError ("No sandbox found for project " ++ st.project_id)),
            st, g, [.queryProjects st.project_id]⟩
      | some sid =>
        if sid = "" then
          ⟨.error (.valueError ("No sandbox found for project " ++ st.project_id)),
            st, g, [.queryProjects st.project_id]⟩
        else
          let st1 : ToolState :=
            { st with _sandbox_id := some sid, _sandbox_pass := sandbox_info.pass }
          match get_or_start_sandbox env sid with
          | (.error e, tr) =>
              ⟨.error e, st1, g, .queryProjects st.project_id :: tr⟩
          | (.ok sandbox, tr) =>
            let st2 : ToolState := { st1 with _sandbox := some sandbox }
            if g.urls_printed then
              ⟨.ok sandbox, st2, g, .queryProjects st.project_id :: tr⟩
            else
              match env.get_preview_link sandbox 6080 with
              | .error e =>
                  ⟨.error e, st2, g,
                    .queryProjects st.project_id ::
                      (tr ++ [.getPreviewLink sandbox 6080])⟩
              | .ok vnc_link =>
                match env.get_preview_link sandbox 8080 with
                | .error e =>
                    ⟨.error e, st2, g,
                      .queryProjects st.project_id ::
                        (tr ++ [.getPreviewLink sandbox 6080,
                                .getPreviewLink sandbox 8080])⟩
                | .ok website_link =>
                    ⟨.ok sandbox, st2, ⟨true⟩,
                      .queryProjects st.project_id ::
                        (tr ++ [.getPreviewLink sandbox 6080,
                                .getPreviewLink sandbox 8080,
                                .printUrls vnc_link website_link])⟩

/-- Embedding of the `sandbox` property: raises `RuntimeError` until
resolution has occurred. -/
def sandbox (st : ToolState) : Except Err Sandbox :=
  match st._sandbox with
  | none => .error (.runtimeError "Sandbox not initialized. Call _ensure_sandbox() first.")
  | some s => .ok s

/-- Embedding of the `sandbox_id` property: raises `RuntimeError` until
resolution has occurred. -/
def sandbox_id (st : ToolState) : Except Err String :=
  match st._sandbox_id with
  | none => .error (.runtimeError "Sandbox ID not initialized. Call _ensure_sandbox() first.")
  | some s => .ok s

end SandboxToolsBase

/-! Concrete environments, used to exercise the embedded functions on
concrete inputs. -/

/-- An environment whose sandbox is already active and whose store holds a
record for every project. -/
def envReady : Env :=
  { get_current_sandbox := fun sid _ => .ok ⟨sid, ⟨.active⟩⟩
    start := fun _ => .ok ()
    create_session := fun _ _ => .ok ()
    execute_session_command := fun _ _ _ => .ok ()
    create := fun _ => .ok ⟨"sb-new", ⟨.active⟩⟩
    query_projects := fun pid => .ok [⟨pid, some ⟨some "sb-1", some "pw"⟩⟩]
    get_preview_link := fun sb port => .ok (sb.id ++ ":" ++ toString port) }

/-- An environment whose sandbox is stopped on the first fetch and active
on the re-fetch. -/
def envStopped : Env :=
  { envReady with
    get_current_sandbox := fun sid n =>
      if n = 0 then .ok ⟨sid, ⟨.stopped⟩⟩ else .ok ⟨sid, ⟨.active⟩⟩ }

/-- An environment whose store has no record for any project. -/
def envNoProject : Env :=
  { envReady with query_projects := fun _ => .ok [] }

/-- An environment whose project records carry no sandbox descriptor. -/
def envNoSandboxId : Env :=
  { envReady with query_projects := fun pid => .ok [⟨pid, none⟩] }

/-- An environment whose every operation fails, each with a distinct error
payload. -/
def envFail : Env :=
  { get_current_sandbox := fun _ n => .error (.providerError (10 + n))
    start := fun _ => .error (.providerError 20)
    create_session := fun _ _ => .error (.providerError 30)
    execute_session_command := fun _ _ _ => .error (.providerError 40)
    create := fun _ => .error (.providerError 50)
    query_projects := fun _ => .error (.providerError 60)
    get_preview_link := fun _ _ => .error (.providerError 70) }

/-- An environment where the sandbox resolution itself fails but the store
succeeds. -/
def envResolveFail : Env :=
  { envReady with get_current_sandbox := fun _ n => .error (.providerError (10 + n)) }

/-! Theorems for the claims. -/

/-- C5: when the fetched handle's state is neither stopped nor archived,
`get_or_start_sandbox` returns the handle from the single fetch unchanged
and performs no further provider call: the whole invocation is exactly the
one fetch. -/
theorem C5_no_start_when_not_stopped_or_archived (env : Env) (sandbox_id : String)
    (sb : Sandbox)
    (hfetch : env.get_current_sandbox sandbox_id 0 = .ok sb)
    (h1 : sb.inst.state ≠ WorkspaceState.stopped)
    (h2 : sb.inst.state ≠ WorkspaceState.archived) :
    get_or_start_sandbox env sandbox_id =
      (.ok sb, [.getCurrentSandbox sandbox_id 0]) := by
  have hns : needsStart sb = false := by
    unfold needsStart
    cases h : sb.inst.state <;> simp_all
  simp only [get_or_start_sandbox, hfetch, hns, Bool.false_eq_true, if_false]

/-- Witness for C5 at a concrete environment with an active sandbox. -/
theorem C5_witness :
    get_or_start_sandbox envReady "sb-1" =
      (.ok ⟨"sb-1", ⟨.active⟩⟩, [.getCurrentSandbox "sb-1" 0]) :=
  C5_no_start_when_not_stopped_or_archived envReady "sb-1" ⟨"sb-1", ⟨.active⟩⟩
    rfl (by decide) (by decide)

/-- C7: `start_supervisord_session` creates the session named
`supervisord-session` on the handle and then issues exactly one
asynchronous command launching supervisord in that session; failures of
either step are re-raised unchanged. -/
theorem C7_start_supervisord_session_behavior (env : Env) (sb : Sandbox) :
    ((start_supervisord_session env sb).2.head? =
        some (.createSession sb supervisordSessionId))
    ∧ (∀ e, env.create_session sb supervisordSessionId = .error e →
        start_supervisord_session env sb =
          (.error e, [.createSession sb supervisordSessionId]))
    ∧ (env.create_session sb supervisordSessionId = .ok () →
        ((start_supervisord_session env sb).2 =
            [.createSession sb supervisordSessionId,
             .executeSessionCommand sb supervisordSessionId
               ⟨supervisordCommand, true⟩]
         ∧ (∀ e, env.execute_session_command sb supervisordSessionId
                ⟨supervisordCommand, true⟩ = .error e →
              (start_supervisord_session env sb).1 = .error e)
         ∧ (env.execute_session_command sb supervisordSessionId
                ⟨supervisordCommand, true⟩ = .ok () →
              (start_supervisord_session env sb).1 = .ok ()))) := by
  refine ⟨?_, ?_, ?_⟩
  · cases h : env.create_session sb supervisordSessionId with
    | error e => simp [start_supervisord_session, h]
    | ok u =>
      cases h2 : env.execute_session_command sb supervisordSessionId
          ⟨supervisordCommand, true⟩ with
      | error e => simp [start_supervisord_session, h, h2]
      | ok u2 => simp [start_supervisord_session, h, h2]
  · intro e he
    simp only [start_supervisord_session, he]
  · intro hcs
    refine ⟨?_, ?_, ?_⟩
    · cases h2 : env.execute_session_command sb supervisordSessionId
          ⟨supervisordCommand, true⟩ with
      | error e => simp [start_supervisord_session, hcs, h2]
      | ok u2 => simp [start_supervisord_session, hcs, h2]
    · intro e he
      simp only [start_supervisord_session, hcs, he]
    · intro he
      simp only [start_supervisord_session, hcs, he]

/-- Witness for C7 at a concrete environment where both steps succeed. -/
theorem C7_witness :
    (start_supervisord_session envReady ⟨"sb-1", ⟨.active⟩⟩).2 =
      [.createSession ⟨"sb-1", ⟨.active⟩⟩ supervisordSessionId,
       .executeSessionCommand ⟨"sb-1", ⟨.active⟩⟩ supervisordSessionId
         ⟨supervisordCommand, true⟩] :=
  ((C7_start_supervisord_session_behavior envReady ⟨"sb-1", ⟨.active⟩⟩).2.2 rfl).1

/-- C1: `get_or_start_sandbox` first fetches the current handle; when the
fetched state is stopped or archived it issues a start request, re-fetches,
and starts the supervision session on the re-fetched handle, returning that
handle; and every underlying failure (fetch, start, re-fetch, or session
setup) propagates to the caller. -/
theorem C1_get_or_start_sandbox_behavior (env : Env) (sandbox_id : String) :
    ((get_or_start_sandbox env sandbox_id).2.head? =
        some (.getCurrentSandbox sandbox_id 0))
    ∧ (∀ e, env.get_current_sandbox sandbox_id 0 = .error e →
        get_or_start_sandbox env sandbox_id =
          (.error e, [.getCurrentSandbox sandbox_id 0]))
    ∧ (∀ sb, env.get_current_sandbox sandbox_id 0 = .ok sb →
        needsStart sb = true →
        (∀ e, env.start sb = .error e →
            get_or_start_sandbox env sandbox_id =
              (.error e, [.getCurrentSandbox sandbox_id 0, .startSandbox sb]))
        ∧ (env.start sb = .ok () →
            (∀ e, env.get_current_sandbox sandbox_id 1 = .error e →
                (get_or_start_sandbox env sandbox_id).1 = .error e)
            ∧ (∀ sb2, env.get_current_sandbox sandbox_id 1 = .ok sb2 →
                (∀ e, (start_supervisord_session env sb2).1 = .error e →
                    (get_or_start_sandbox env sandbox_id).1 = .error e)
                ∧ ((start_supervisord_session env sb2).1 = .ok () →
                    get_or_start_sandbox env sandbox_id =
                      (.ok sb2,
                        .getCurrentSandbox sandbox_id 0 :: .startSandbox sb ::
                          .getCurrentSandbox sandbox_id 1 ::
                          (start_supervisord_session env sb2).2))))) := by
  refine ⟨?_, ?_, ?_⟩
  · cases h0 : env.get_current_sandbox sandbox_id 0 with
    | error e => simp [get_or_start_sandbox, h0]
    | ok sb =>
      cases hns : needsStart sb with
      | false => simp [get_or_start_sandbox, h0, hns]
      | true =>
        cases h1 : env.start sb with
        | error e => simp [get_or_start_sandbox, h0, hns, h1]
        | ok u =>
          cases h2 : env.get_current_sandbox sandbox_id 1 with
          | error e => simp [get_or_start_sandbox, h0, hns, h1, h2]
          | ok sb2 =>
            cases h3 : start_supervisord_session env sb2 with
            | mk res tr =>
              cases res with
              | error e => simp [get_or_start_sandbox, h0, hns, h1, h2, h3]
              | ok u2 => simp [get_or_start_sandbox, h0, hns, h1, h2, h3]
  · intro e he
    simp only [get_or_start_sandbox, he]
  · intro sb hsb hns
    refine ⟨?_, ?_⟩
    · intro e he
      simp [get_or_start_sandbox, hsb, hns, he]
    · intro hst
      refine ⟨?_, ?_⟩
      · intro e he
        simp [get_or_start_sandbox, hsb, hns, hst, he]
      · intro sb2 h2
        refine ⟨?_, ?_⟩
        · intro e he
          cases h3 : start_supervisord_session env sb2 with
          | mk res tr =>
            rw [h3] at he
            cases res with
            | error e2 =>
              obtain rfl : e2 = e := by injection he
              simp [get_or_start_sandbox, hsb, hns, hst, h2, h3]
            | ok u2 => simp at he
        · intro hok
          cases h3 : start_supervisord_session env sb2 with
          | mk res tr =>
            rw [h3] at hok
            cases res with
            | error e2 => simp at hok
            | ok u2 =>
              simp [get_or_start_sandbox, hsb, hns, hst, h2, h3]

/-- Witness for C1 on the stopped-then-started path: the handle fetched
first is stopped, a start request is issued, and the supervision session is
started on the re-fetched (now active) handle, which is returned. -/
theorem C1_witness :
    get_or_start_sandbox envStopped "sb-1" =
      (.ok ⟨"sb-1", ⟨.active⟩⟩,
        .getCurrentSandbox "sb-1" 0 :: .startSandbox ⟨"sb-1", ⟨.stopped⟩⟩ ::
          .getCurrentSandbox "sb-1" 1 ::
          (start_supervisord_session envStopped ⟨"sb-1", ⟨.active⟩⟩).2) :=
  ((((C1_get_or_start_sandbox_behavior envStopped "sb-1").2.2
      ⟨"sb-1", ⟨.stopped⟩⟩ rfl rfl).2 rfl).2 ⟨"sb-1", ⟨.active⟩⟩ rfl).2 rfl

/-- C2: with no cached handle, `_ensure_sandbox` raises a `ValueError` when
the project lookup returns no record, and raises a `ValueError` when the
found record's sandbox descriptor has no id; in both cases the trace is the
store read alone, so no sandbox resolution is attempted. -/
theorem C2_missing_project_or_sandbox_id (env : Env) (g : GlobalState)
    (st : ToolState) (hnone : st._sandbox = none) :
    (env.query_projects st.project_id = .ok [] →
      SandboxToolsBase._ensure_sandbox env g st =
        ⟨.error (.valueError ("Project " ++ st.project_id ++ " not found")),
          st, g, [.queryProjects st.project_id]⟩)
    ∧ (∀ project_data rest,
        env.query_projects st.project_id = .ok (project_data :: rest) →
        (project_data.sandbox.getD emptySandboxInfo).id = none →
        SandboxToolsBase._ensure_sandbox env g st =
          ⟨.error (.valueError ("No sandbox found for project " ++ st.project_id)),
            st, g, [.queryProjects st.project_id]⟩) := by
  constructor
  · intro hq
    simp only [SandboxToolsBase._ensure_sandbox, hnone, hq]
  · intro project_data rest hq hid
    simp only [SandboxToolsBase._ensure_sandbox, hnone, hq, hid]

/-- Witness for C2: a concrete missing project and a concrete record with
no sandbox id, both raising the value error without resolution. -/
theorem C2_witness :
    (SandboxToolsBase._ensure_sandbox envNoProject initGlobal
        (SandboxToolsBase.init "p1") =
      ⟨.error (.valueError ("Project " ++ "p1" ++ " not found")),
        SandboxToolsBase.init "p1", initGlobal, [.queryProjects "p1"]⟩)
    ∧ (SandboxToolsBase._ensure_sandbox envNoSandboxId initGlobal
        (SandboxToolsBase.init "p1") =
      ⟨.error (.valueError ("No sandbox found for project " ++ "p1")),
        SandboxToolsBase.init "p1", initGlobal, [.queryProjects "p1"]⟩) :=
  ⟨(C2_missing_project_or_sandbox_id envNoProject initGlobal
      (SandboxToolsBase.init "p1") rfl).1 rfl,
   (C2_missing_project_or_sandbox_id envNoSandboxId initGlobal
      (SandboxToolsBase.init "p1") rfl).2 ⟨"p1", none⟩ [] rfl rfl⟩

/-- C6: `create_sandbox` requests a new sandbox with the fixed ports,
resources and environment variables of the source, and starts the
supervision session on the created sandbox before returning it: the
creation request opens the trace, the supervision calls follow on the
created handle, and on success the created handle is returned. -/
theorem C6_create_sandbox_configuration (env : Env) (password : String)
    (sandbox_id : Option String) :
    ((createParams password sandbox_id).ports = [6080, 5900, 5901, 9222, 8080, 8002]
     ∧ (createParams password sandbox_id).resources = ⟨2, 4, 5⟩
     ∧ (createParams password sandbox_id).env_vars =
        [("CHROME_PERSISTENT_SESSION", "true"),
         ("RESOLUTION", "1024x768x24"),
         ("RESOLUTION_WIDTH", "1024"),
         ("RESOLUTION_HEIGHT", "768"),
         ("VNC_PASSWORD", password),
         ("ANONYMIZED_TELEMETRY", "false"),
         ("CHROME_PATH", ""),
         ("CHROME_USER_DATA", ""),
         ("CHROME_DEBUGGING_PORT", "9222"),
         ("CHROME_DEBUGGING_HOST", "localhost"),
         ("CHROME_CDP", "")])
    ∧ ((create_sandbox env password sandbox_id).2.head? =
        some (.createSandboxReq (createParams password sandbox_id)))
    ∧ (∀ sb, env.create (createParams password sandbox_id) = .ok sb →
        (create_sandbox env password sandbox_id).2 =
          .createSandboxReq (createParams password sandbox_id) ::
            (start_supervisord_session env sb).2
        ∧ ((start_supervisord_session env sb).1 = .ok () →
            create_sandbox env password sandbox_id =
              (.ok sb, .createSandboxReq (createParams password sandbox_id) ::
                (start_supervisord_session env sb).2))) := by
  refine ⟨⟨rfl, rfl, rfl⟩, ?_, ?_⟩
  · cases hc : env.create (createParams password sandbox_id) with
    | error e => simp [create_sandbox, hc]
    | ok sb =>
      cases hs : start_supervisord_session env sb with
      | mk res tr =>
        cases res with
        | error e => simp [create_sandbox, hc, hs]
        | ok u => simp [create_sandbox, hc, hs]
  · intro sb hc
    cases hs : start_supervisord_session env sb with
    | mk res tr =>
      cases res with
      | error e =>
        constructor
        · simp [create_sandbox, hc, hs]
        · intro hok
          simp at hok
      | ok u =>
        constructor
        · simp [create_sandbox, hc, hs]
        · intro hok
          simp [create_sandbox, hc, hs]

/-- Witness for C6 at a concrete environment: the created handle is
returned after the supervision calls. -/
theorem C6_witness :
    create_sandbox envReady "secret" none =
      (.ok ⟨"sb-new", ⟨.active⟩⟩,
        .createSandboxReq (createParams "secret" none) ::
          (start_supervisord_session envReady ⟨"sb-new", ⟨.active⟩⟩).2) :=
  ((C6_create_sandbox_configuration envReady "secret" none).2.2
    ⟨"sb-new", ⟨.active⟩⟩ rfl).2 rfl

/-- If a handle is cached, `_ensure_sandbox` returns it with no external
call and no state change. -/
theorem ensure_cached (env : Env) (g : GlobalState) (st : ToolState) (sb : Sandbox)
    (hc : st._sandbox = some sb) :
    SandboxToolsBase._ensure_sandbox env g st = ⟨.ok sb, st, g, []⟩ := by
  simp [SandboxToolsBase._ensure_sandbox, hc]

/-- A successful `_ensure_sandbox` on an unresolved instance leaves the
returned handle cached and a non-empty sandbox id recorded. -/
theorem ensure_ok_shape (env : Env) (g : GlobalState) (st : ToolState) (sb : Sandbox)
    (hnone : st._sandbox = none)
    (hok : (SandboxToolsBase._ensure_sandbox env g st).result = .ok sb) :
    (SandboxToolsBase._ensure_sandbox env g st).state._sandbox = some sb
    ∧ ∃ sid, (SandboxToolsBase._ensure_sandbox env g st).state._sandbox_id = some sid := by
  cases hq : env.query_projects st.project_id with
  | error e => simp [SandboxToolsBase._ensure_sandbox, hnone, hq] at hok
  | ok data =>
    cases data with
    | nil => simp [SandboxToolsBase._ensure_sandbox, hnone, hq] at hok
    | cons project_data rest =>
      cases hid : (project_data.sandbox.getD emptySandboxInfo).id with
      | none => simp [SandboxToolsBase._ensure_sandbox, hnone, hq, hid] at hok
      | some sid =>
        by_cases hsid : sid = ""
        · simp [SandboxToolsBase._ensure_sandbox, hnone, hq, hid, hsid] at hok
        · cases hg : get_or_start_sandbox env sid with
          | mk res tr =>
            cases res with
            | error e =>
              simp [SandboxToolsBase._ensure_sandbox, hnone, hq, hid, hsid, hg] at hok
            | ok sandbox =>
              by_cases hup : g.urls_printed
              · have hmain : SandboxToolsBase._ensure_sandbox env g st =
                    ⟨.ok sandbox,
                      { st with _sandbox_id := some sid,
                                _sandbox_pass := (project_data.sandbox.getD emptySandboxInfo).pass,
                                _sandbox := some sandbox },
                      g, .queryProjects st.project_id :: tr⟩ := by
                  simp [SandboxToolsBase._ensure_sandbox, hnone, hq, hid, hsid, hg, hup]
                rw [hmain] at hok ⊢
                obtain rfl : sandbox = sb := by simpa using hok
                exact ⟨rfl, sid, rfl⟩
              · cases hp1 : env.get_preview_link sandbox 6080 with
                | error e =>
                  simp [SandboxToolsBase._ensure_sandbox, hnone, hq, hid, hsid, hg,
                    hup, hp1] at hok
                | ok vnc_link =>
                  cases hp2 : env.get_preview_link sandbox 8080 with
                  | error e =>
                    simp [SandboxToolsBase._ensure_sandbox, hnone, hq, hid, hsid, hg,
                      hup, hp1, hp2] at hok
                  | ok website_link =>
                    have hmain : SandboxToolsBase._ensure_sandbox env g st =
                        ⟨.ok sandbox,
                          { st with _sandbox_id := some sid,
                                    _sandbox_pass := (project_data.sandbox.getD emptySandboxInfo).pass,
                                    _sandbox := some sandbox },
                          ⟨true⟩,
                          .queryProjects st.project_id ::
                            (tr ++ [.getPreviewLink sandbox 6080,
                                    .getPreviewLink sandbox 8080,
                                    .printUrls vnc_link website_link])⟩ := by
                      simp [SandboxToolsBase._ensure_sandbox, hnone, hq, hid, hsid, hg,
                        hup, hp1, hp2]
                    rw [hmain] at hok ⊢
                    obtain rfl : sandbox = sb := by simpa using hok
                    exact ⟨rfl, sid, rfl⟩

/-- A successful `_ensure_sandbox` always leaves the returned handle
cached, whether it was resolved now or earlier. -/
theorem ensure_ok_cache (env : Env) (g : GlobalState) (st : ToolState) (sb : Sandbox)
    (hok : (SandboxToolsBase._ensure_sandbox env g st).result = .ok sb) :
    (SandboxToolsBase._ensure_sandbox env g st).state._sandbox = some sb := by
  cases hc : st._sandbox with
  | some s =>
    rw [ensure_cached env g st s hc] at hok ⊢
    obtain rfl : s = sb := by simpa using hok
    exact hc
  | none => exact (ensure_ok_shape env g st sb hc hok).1

/-- C3: resolution is memoized per instance: with a cached handle,
`_ensure_sandbox` returns it with an empty trace (no project lookup, no
provider call) and unchanged state; and after any successful call, every
later call on the resulting instance state — under any environment and any
class state — returns the same handle with an empty trace. -/
theorem C3_ensure_sandbox_memoized (env env2 : Env) (g g2 : GlobalState)
    (st : ToolState) :
    (∀ sb, st._sandbox = some sb →
        SandboxToolsBase._ensure_sandbox env g st = ⟨.ok sb, st, g, []⟩)
    ∧ (∀ sb, (SandboxToolsBase._ensure_sandbox env g st).result = .ok sb →
        SandboxToolsBase._ensure_sandbox env2 g2
            (SandboxToolsBase._ensure_sandbox env g st).state =
          ⟨.ok sb, (SandboxToolsBase._ensure_sandbox env g st).state, g2, []⟩) := by
  constructor
  · intro sb hc
    exact ensure_cached env g st sb hc
  · intro sb hok
    exact ensure_cached env2 g2 _ sb (ensure_ok_cache env g st sb hok)

/-- Witness for C3: after a successful resolution, a second call on the
resulting state — under an environment whose every operation fails —
still returns the same handle with no external call. -/
theorem C3_witness :
    SandboxToolsBase._ensure_sandbox envFail initGlobal
        (SandboxToolsBase._ensure_sandbox envReady initGlobal
          (SandboxToolsBase.init "p1")).state =
      ⟨.ok ⟨"sb-1", ⟨.active⟩⟩,
        (SandboxToolsBase._ensure_sandbox envReady initGlobal
          (SandboxToolsBase.init "p1")).state,
        initGlobal, []⟩ :=
  (C3_ensure_sandbox_memoized envReady envFail initGlobal initGlobal
    (SandboxToolsBase.init "p1")).2 ⟨"sb-1", ⟨.active⟩⟩ rfl

/-- C4: the `sandbox` and `sandbox_id` accessors raise a `RuntimeError`
while resolution has not occurred; after a successful `_ensure_sandbox` on
an unresolved instance, both return the cached values without raising. -/
theorem C4_accessors_fail_fast (env : Env) (g : GlobalState) (st : ToolState) :
    (st._sandbox = none →
      SandboxToolsBase.sandbox st =
        .error (.runtimeError "Sandbox not initialized. Call _ensure_sandbox() first."))
    ∧ (st._sandbox_id = none →
      SandboxToolsBase.sandbox_id st =
        .error (.runtimeError "Sandbox ID not initialized. Call _ensure_sandbox() first."))
    ∧ (st._sandbox = none →
        ∀ sb, (SandboxToolsBase._ensure_sandbox env g st).result = .ok sb →
          SandboxToolsBase.sandbox (SandboxToolsBase._ensure_sandbox env g st).state = .ok sb
          ∧ ∃ sid, SandboxToolsBase.sandbox_id
              (SandboxToolsBase._ensure_sandbox env g st).state = .ok sid) := by
  refine ⟨?_, ?_, ?_⟩
  · intro h
    simp [SandboxToolsBase.sandbox, h]
  · intro h
    simp [SandboxToolsBase.sandbox_id, h]
  · intro hnone sb hok
    obtain ⟨h1, sid, h2⟩ := ensure_ok_shape env g st sb hnone hok
    exact ⟨by simp [SandboxToolsBase.sandbox, h1], sid,
      by simp [SandboxToolsBase.sandbox_id, h2]⟩

/-- Witness for C4: a fresh instance's accessors raise; after a successful
resolution both return values. -/
theorem C4_witness :
    (SandboxToolsBase.sandbox (SandboxToolsBase.init "p1") =
        .error (.runtimeError "Sandbox not initialized. Call _ensure_sandbox() first."))
    ∧ (SandboxToolsBase.sandbox_id (SandboxToolsBase.init "p1") =
        .error (.runtimeError "Sandbox ID not initialized. Call _ensure_sandbox() first."))
    ∧ (SandboxToolsBase.sandbox
          (SandboxToolsBase._ensure_sandbox envReady initGlobal
            (SandboxToolsBase.init "p1")).state = .ok ⟨"sb-1", ⟨.active⟩⟩
       ∧ ∃ sid, SandboxToolsBase.sandbox_id
          (SandboxToolsBase._ensure_sandbox envReady initGlobal
            (SandboxToolsBase.init "p1")).state = .ok sid) :=
  ⟨(C4_accessors_fail_fast envReady initGlobal (SandboxToolsBase.init "p1")).1 rfl,
   (C4_accessors_fail_fast envReady initGlobal (SandboxToolsBase.init "p1")).2.1 rfl,
   (C4_accessors_fail_fast envReady initGlobal (SandboxToolsBase.init "p1")).2.2 rfl
     ⟨"sb-1", ⟨.active⟩⟩ rfl⟩

/-- C9: when the project lookup found a non-empty sandbox id but
`get_or_start_sandbox` fails, `_ensure_sandbox` re-raises while leaving the
instance partially updated: the id and credential from the record are
stored, the handle is not, so `sandbox_id` afterwards returns a value while
`sandbox` raises. -/
theorem C9_resolution_failure_leaves_id_set (env : Env) (g : GlobalState)
    (st : ToolState) (project_data : ProjectRecord) (rest : List ProjectRecord)
    (sid : String) (e : Err) (tr : List Event)
    (hnone : st._sandbox = none)
    (hq : env.query_projects st.project_id = .ok (project_data :: rest))
    (hid : (project_data.sandbox.getD emptySandboxInfo).id = some sid)
    (hsid : sid ≠ "")
    (herr : get_or_start_sandbox env sid = (.error e, tr)) :
    SandboxToolsBase._ensure_sandbox env g st =
      ⟨.error e,
        { st with _sandbox_id := some sid,
                  _sandbox_pass := (project_data.sandbox.getD emptySandboxInfo).pass },
        g, .queryProjects st.project_id :: tr⟩
    ∧ SandboxToolsBase.sandbox_id
        (SandboxToolsBase._ensure_sandbox env g st).state = .ok sid
    ∧ SandboxToolsBase.sandbox (SandboxToolsBase._ensure_sandbox env g st).state =
        .error (.runtimeError "Sandbox not initialized. Call _ensure_sandbox() first.") := by
  have hmain : SandboxToolsBase._ensure_sandbox env g st =
      ⟨.error e,
        { st with _sandbox_id := some sid,
                  _sandbox_pass := (project_data.sandbox.getD emptySandboxInfo).pass },
        g, .queryProjects st.project_id :: tr⟩ := by
    simp [SandboxToolsBase._ensure_sandbox, hnone, hq, hid, hsid, herr]
  refine ⟨hmain, ?_, ?_⟩
  · rw [hmain]
    simp [SandboxToolsBase.sandbox_id]
  · rw [hmain]
    simp [SandboxToolsBase.sandbox, hnone]

/-- Witness for C9: a concrete environment whose store succeeds but whose
provider fetch fails leaves the id readable and the handle unset. -/
theorem C9_witness :
    SandboxToolsBase._ensure_sandbox envResolveFail initGlobal
        (SandboxToolsBase.init "p1") =
      ⟨.error (.providerError 10),
        { SandboxToolsBase.init "p1" with
            _sandbox_id := some "sb-1", _sandbox_pass := some "pw" },
        initGlobal, [.queryProjects "p1", .getCurrentSandbox "sb-1" 0]⟩
    ∧ SandboxToolsBase.sandbox_id
        (SandboxToolsBase._ensure_sandbox envResolveFail initGlobal
          (SandboxToolsBase.init "p1")).state = .ok "sb-1"
    ∧ SandboxToolsBase.sandbox
        (SandboxToolsBase._ensure_sandbox envResolveFail initGlobal
          (SandboxToolsBase.init "p1")).state =
        .error (.runtimeError "Sandbox not initialized. Call _ensure_sandbox() first.") :=
  C9_resolution_failure_leaves_id_set envResolveFail initGlobal
    (SandboxToolsBase.init "p1") ⟨"p1", some ⟨some "sb-1", some "pw"⟩⟩ [] "sb-1"
    (.providerError 10) [.getCurrentSandbox "sb-1" 0]
    rfl rfl rfl (by decide) rfl

/-- Classification of trace events: the calls that `get_or_start_sandbox`
can perform (fetch, start, session creation, session command). -/
def Event.isResolveCall : Event → Bool
  | .getCurrentSandbox _ _ => true
  | .startSandbox _ => true
  | .createSession _ _ => true
  | .executeSessionCommand _ _ _ => true
  | .createSandboxReq _ => false
  | .queryProjects _ => false
  | .getPreviewLink _ _ => false
  | .printUrls _ _ => false

/-- The trace of `start_supervisord_session` is one of its two prefixes. -/
theorem supervisord_trace_shape (env : Env) (sb : Sandbox) :
    (start_supervisord_session env sb).2 = [.createSession sb supervisordSessionId]
    ∨ (start_supervisord_session env sb).2 =
        [.createSession sb supervisordSessionId,
         .executeSessionCommand sb supervisordSessionId
           ⟨supervisordCommand, true⟩] := by
  cases h : env.create_session sb supervisordSessionId with
  | error e => exact Or.inl (by simp [start_supervisord_session, h])
  | ok u =>
    cases h2 : env.execute_session_command sb supervisordSessionId
        ⟨supervisordCommand, true⟩ with
    | error e => exact Or.inr (by simp [start_supervisord_session, h, h2])
    | ok u2 => exact Or.inr (by simp [start_supervisord_session, h, h2])

/-- Every event of a `start_supervisord_session` trace is a resolve call. -/
theorem supervisord_trace_calls (env : Env) (sb : Sandbox) :
    ∀ ev ∈ (start_supervisord_session env sb).2, ev.isResolveCall = true := by
  intro ev hev
  rcases supervisord_trace_shape env sb with h | h <;> rw [h] at hev <;>
    rcases List.mem_cons.1 hev with h2 | h2 <;>
    first
      | (subst h2; rfl)
      | simp_all [Event.isResolveCall]

/-- The trace of `start_supervisord_session` has no repeated call. -/
theorem supervisord_trace_nodup (env : Env) (sb : Sandbox) :
    (start_supervisord_session env sb).2.Nodup := by
  rcases supervisord_trace_shape env sb with h | h <;> rw [h] <;> simp

/-- The trace of `get_or_start_sandbox` is the single fetch, or the fetch
followed by the start request, the re-fetch and then a
`start_supervisord_session` trace prefix. -/
theorem get_or_start_trace_shape (env : Env) (sandbox_id : String) :
    ((get_or_start_sandbox env sandbox_id).2 = [.getCurrentSandbox sandbox_id 0])
    ∨ (∃ sb, (get_or_start_sandbox env sandbox_id).2 =
        [.getCurrentSandbox sandbox_id 0, .startSandbox sb])
    ∨ (∃ sb, (get_or_start_sandbox env sandbox_id).2 =
        [.getCurrentSandbox sandbox_id 0, .startSandbox sb,
         .getCurrentSandbox sandbox_id 1])
    ∨ (∃ sb sb2, (get_or_start_sandbox env sandbox_id).2 =
        .getCurrentSandbox sandbox_id 0 :: .startSandbox sb ::
          .getCurrentSandbox sandbox_id 1 ::
          (start_supervisord_session env sb2).2) := by
  cases h0 : env.get_current_sandbox sandbox_id 0 with
  | error e => exact Or.inl (by simp [get_or_start_sandbox, h0])
  | ok sb =>
    cases hns : needsStart sb with
    | false => exact Or.inl (by simp [get_or_start_sandbox, h0, hns])
    | true =>
      cases h1 : env.start sb with
      | error e =>
        exact Or.inr (Or.inl ⟨sb, by simp [get_or_start_sandbox, h0, hns, h1]⟩)
      | ok u =>
        cases h2 : env.get_current_sandbox sandbox_id 1 with
        | error e =>
          exact Or.inr (Or.inr (Or.inl ⟨sb,
            by simp [get_or_start_sandbox, h0, hns, h1, h2]⟩))
        | ok sb2 =>
          cases h3 : start_supervisord_session env sb2 with
          | mk res tr =>
            cases res with
            | error e =>
              refine Or.inr (Or.inr (Or.inr ⟨sb, sb2, ?_⟩))
              rw [h3]
              simp [get_or_start_sandbox, h0, hns, h1, h2, h3]
            | ok u2 =>
              refine Or.inr (Or.inr (Or.inr ⟨sb, sb2, ?_⟩))
              rw [h3]
              simp [get_or_start_sandbox, h0, hns, h1, h2, h3]

/-- Every event of a `get_or_start_sandbox` trace is a resolve call. -/
theorem get_or_start_trace_calls (env : Env) (sandbox_id : String) :
    ∀ ev ∈ (get_or_start_sandbox env sandbox_id).2, ev.isResolveCall = true := by
  intro ev hev
  rcases get_or_start_trace_shape env sandbox_id with h | ⟨sb, h⟩ | ⟨sb, h⟩ | ⟨sb, sb2, h⟩ <;>
    rw [h] at hev
  · simp at hev
    subst hev
    rfl
  · simp only [List.mem_cons, List.not_mem_nil, or_false] at hev
    rcases hev with rfl | rfl <;> rfl
  · simp only [List.mem_cons, List.not_mem_nil, or_false] at hev
    rcases hev with rfl | rfl | rfl <;> rfl
  · rcases List.mem_cons.1 hev with rfl | h2
    · rfl
    · rcases List.mem_cons.1 h2 with rfl | h3
      · rfl
      · rcases List.mem_cons.1 h3 with rfl | h4
        · rfl
        · exact supervisord_trace_calls env sb2 ev h4

/-- An event that is not a resolve call never occurs in a
`get_or_start_sandbox` trace. -/
theorem not_mem_resolve_trace (env : Env) (sandbox_id : String) (ev : Event)
    (hev : ev.isResolveCall = false) :
    ev ∉ (get_or_start_sandbox env sandbox_id).2 := by
  intro hmem
  have h := get_or_start_trace_calls env sandbox_id ev hmem
  rw [hev] at h
  exact Bool.false_ne_true h

/-- The trace of `get_or_start_sandbox` has no repeated call. -/
theorem get_or_start_trace_nodup (env : Env) (sandbox_id : String) :
    (get_or_start_sandbox env sandbox_id).2.Nodup := by
  rcases get_or_start_trace_shape env sandbox_id with h | ⟨sb, h⟩ | ⟨sb, h⟩ | ⟨sb, sb2, h⟩ <;>
    rw [h]
  · simp
  · simp
  · simp
  · rcases supervisord_trace_shape env sb2 with h2 | h2 <;> rw [h2] <;> simp

/-- C10: the preview links are printed at most once per process: the
class-level flag starts false; once it is true, `_ensure_sandbox` never
prints again and leaves the flag untouched; and any resolution that prints
found the flag false and leaves it true. -/
theorem C10_urls_printed_once (env : Env) (g : GlobalState) (st : ToolState) :
    initGlobal.urls_printed = false
    ∧ (g.urls_printed = true →
        (SandboxToolsBase._ensure_sandbox env g st).globalState = g
        ∧ ∀ v w, Event.printUrls v w ∉
            (SandboxToolsBase._ensure_sandbox env g st).trace)
    ∧ (∀ v w, Event.printUrls v w ∈
          (SandboxToolsBase._ensure_sandbox env g st).trace →
        g.urls_printed = false
        ∧ (SandboxToolsBase._ensure_sandbox env g st).globalState.urls_printed
            = true) := by
  refine ⟨rfl, ?_, ?_⟩
  · intro hup
    cases hc : st._sandbox with
    | some s =>
      rw [ensure_cached env g st s hc]
      exact ⟨rfl, by intro v w; simp⟩
    | none =>
      cases hq : env.query_projects st.project_id with
      | error e =>
        constructor
        · simp [SandboxToolsBase._ensure_sandbox, hc, hq]
        · intro v w
          simp [SandboxToolsBase._ensure_sandbox, hc, hq]
      | ok data =>
        cases data with
        | nil =>
          constructor
          · simp [SandboxToolsBase._ensure_sandbox, hc, hq]
          · intro v w
            simp [SandboxToolsBase._ensure_sandbox, hc, hq]
        | cons project_data rest =>
          cases hid : (project_data.sandbox.getD emptySandboxInfo).id with
          | none =>
            constructor
            · simp [SandboxToolsBase._ensure_sandbox, hc, hq, hid]
            · intro v w
              simp [SandboxToolsBase._ensure_sandbox, hc, hq, hid]
          | some sid =>
            by_cases hsid : sid = ""
            · constructor
              · simp [SandboxToolsBase._ensure_sandbox, hc, hq, hid, hsid]
              · intro v w
                simp [SandboxToolsBase._ensure_sandbox, hc, hq, hid, hsid]
            · cases hg : get_or_start_sandbox env sid with
              | mk res tr =>
                have htr : (get_or_start_sandbox env sid).2 = tr := by rw [hg]
                cases res with
                | error e =>
                  constructor
                  · simp [SandboxToolsBase._ensure_sandbox, hc, hq, hid, hsid, hg]
                  · intro v w hmem
                    simp only [SandboxToolsBase._ensure_sandbox, hc, hq, hid, hsid,
                      hg] at hmem
                    rcases List.mem_cons.1 hmem with h | h
                    · exact Event.noConfusion h
                    · exact absurd (htr ▸ h)
                        (not_mem_resolve_trace env sid (Event.printUrls v w) rfl)
                | ok sandbox =>
                  constructor
                  · simp [SandboxToolsBase._ensure_sandbox, hc, hq, hid, hsid, hg, hup]
                  · intro v w hmem
                    simp only [SandboxToolsBase._ensure_sandbox, hc, hq, hid, hsid,
                      hg, hup, if_true] at hmem
                    rcases List.mem_cons.1 hmem with h | h
                    · exact Event.noConfusion h
                    · exact absurd (htr ▸ h)
                        (not_mem_resolve_trace env sid (Event.printUrls v w) rfl)
  · intro v w hmem
    cases hc : st._sandbox with
    | some s =>
      rw [ensure_cached env g st s hc] at hmem
      simp at hmem
    | none =>
      cases hq : env.query_projects st.project_id with
      | error e =>
        simp [SandboxToolsBase._ensure_sandbox, hc, hq] at hmem
      | ok data =>
        cases data with
        | nil =>
          simp [SandboxToolsBase._ensure_sandbox, hc, hq] at hmem
        | cons project_data rest =>
          cases hid : (project_data.sandbox.getD emptySandboxInfo).id with
          | none =>
            simp [SandboxToolsBase._ensure_sandbox, hc, hq, hid] at hmem
          | some sid =>
            by_cases hsid : sid = ""
            · simp [SandboxToolsBase._ensure_sandbox, hc, hq, hid, hsid] at hmem
            · cases hg : get_or_start_sandbox env sid with
              | mk res tr =>
                have htr : (get_or_start_sandbox env sid).2 = tr := by rw [hg]
                cases res with
                | error e =>
                  simp only [SandboxToolsBase._ensure_sandbox, hc, hq, hid, hsid,
                    hg] at hmem
                  rcases List.mem_cons.1 hmem with h | h
                  · exact Event.noConfusion h
                  · exact absurd (htr ▸ h) (not_mem_resolve_trace env sid (Event.printUrls v w) rfl)
                | ok sandbox =>
                  cases hup : g.urls_printed with
                  | true =>
                    simp only [SandboxToolsBase._ensure_sandbox, hc, hq, hid, hsid,
                      hg, hup, if_true] at hmem
                    rcases List.mem_cons.1 hmem with h | h
                    · exact Event.noConfusion h
                    · exact absurd (htr ▸ h) (not_mem_resolve_trace env sid (Event.printUrls v w) rfl)
                  | false =>
                    cases hp1 : env.get_preview_link sandbox 6080 with
                    | error e =>
                      simp only [SandboxToolsBase._ensure_sandbox, hc, hq, hid, hsid,
                        hg, hup, Bool.false_eq_true, if_false, hp1] at hmem
                      rcases List.mem_cons.1 hmem with h | h
                      · exact Event.noConfusion h
                      · rcases List.mem_append.1 h with h2 | h2
                        · exact absurd (htr ▸ h2)
                            (not_mem_resolve_trace env sid (Event.printUrls v w) rfl)
                        · simp at h2
                    | ok vnc_link =>
                      cases hp2 : env.get_preview_link sandbox 8080 with
                      | error e =>
                        simp only [SandboxToolsBase._ensure_sandbox, hc, hq, hid, hsid,
                          hg, hup, Bool.false_eq_true, if_false, hp1, hp2] at hmem
                        rcases List.mem_cons.1 hmem with h | h
                        · exact Event.noConfusion h
                        · rcases List.mem_append.1 h with h2 | h2
                          · exact absurd (htr ▸ h2)
                              (not_mem_resolve_trace env sid (Event.printUrls v w) rfl)
                          · simp at h2
                      | ok website_link =>
                        refine ⟨rfl, ?_⟩
                        simp [SandboxToolsBase._ensure_sandbox, hc, hq, hid, hsid,
                          hg, hup, hp1, hp2]

/-- Witness for C10: the flag starts false, the first successful resolution
prints and sets it, and with the flag already set a resolution on another
instance leaves the class state untouched. -/
theorem C10_witness :
    initGlobal.urls_printed = false
    ∧ (SandboxToolsBase._ensure_sandbox envReady initGlobal
        (SandboxToolsBase.init "p1")).globalState.urls_printed = true
    ∧ (SandboxToolsBase._ensure_sandbox envReady ⟨true⟩
        (SandboxToolsBase.init "p2")).globalState = ⟨true⟩ :=
  ⟨(C10_urls_printed_once envReady initGlobal (SandboxToolsBase.init "p1")).1,
   ((C10_urls_printed_once envReady initGlobal (SandboxToolsBase.init "p1")).2.2
      ("sb-1" ++ ":" ++ toString 6080) ("sb-1" ++ ":" ++ toString 8080)
      (by decide)).2,
   ((C10_urls_printed_once envReady ⟨true⟩ (SandboxToolsBase.init "p2")).2.1
      rfl).1⟩

/-- The trace of `_ensure_sandbox` has no repeated call. -/
theorem ensure_trace_nodup (env : Env) (g : GlobalState) (st : ToolState) :
    (SandboxToolsBase._ensure_sandbox env g st).trace.Nodup := by
  cases hc : st._sandbox with
  | some s =>
    rw [ensure_cached env g st s hc]
    simp
  | none =>
    cases hq : env.query_projects st.project_id with
    | error e => simp [SandboxToolsBase._ensure_sandbox, hc, hq]
    | ok data =>
      cases data with
      | nil => simp [SandboxToolsBase._ensure_sandbox, hc, hq]
      | cons project_data rest =>
        cases hid : (project_data.sandbox.getD emptySandboxInfo).id with
        | none => simp [SandboxToolsBase._ensure_sandbox, hc, hq, hid]
        | some sid =>
          by_cases hsid : sid = ""
          · simp [SandboxToolsBase._ensure_sandbox, hc, hq, hid, hsid]
          · cases hg : get_or_start_sandbox env sid with
            | mk res tr =>
              have htr : (get_or_start_sandbox env sid).2 = tr := by rw [hg]
              have htrnd : tr.Nodup := htr ▸ get_or_start_trace_nodup env sid
              have hqnotin : Event.queryProjects st.project_id ∉ tr :=
                fun h => not_mem_resolve_trace env sid
                  (Event.queryProjects st.project_id) rfl (htr ▸ h)
              have hcalls : ∀ ev ∈ tr, ev.isResolveCall = true :=
                fun ev h => get_or_start_trace_calls env sid ev (htr ▸ h)
              cases res with
              | error e =>
                simp only [SandboxToolsBase._ensure_sandbox, hc, hq, hid, hsid, hg,
                  if_neg hsid]
                exact List.nodup_cons.2 ⟨hqnotin, htrnd⟩
              | ok sandbox =>
                cases hup : g.urls_printed with
                | true =>
                  simp only [SandboxToolsBase._ensure_sandbox, hc, hq, hid, hsid, hg,
                    if_neg hsid, hup, if_true]
                  exact List.nodup_cons.2 ⟨hqnotin, htrnd⟩
                | false =>
                  have hdisj : ∀ l2 : List Event,
                      Event.queryProjects st.project_id ∉ l2 →
                      (∀ ev ∈ l2, ev.isResolveCall = false) → l2.Nodup →
                      (Event.queryProjects st.project_id :: (tr ++ l2)).Nodup := by
                    intro l2 hl2q hl2 hl2nd
                    rw [List.nodup_cons]
                    constructor
                    · intro hmem
                      rcases List.mem_append.1 hmem with h | h
                      · exact hqnotin h
                      · exact hl2q h
                    · rw [List.nodup_append]
                      refine ⟨htrnd, hl2nd, ?_⟩
                      intro ev hev hev2
                      have h1 := hcalls ev hev
                      have h2 := hl2 ev hev2
                      rw [h1] at h2
                      exact Bool.noConfusion h2
                  cases hp1 : env.get_preview_link sandbox 6080 with
                  | error e =>
                    simp only [SandboxToolsBase._ensure_sandbox, hc, hq, hid, hsid, hg,
                      if_neg hsid, hup, Bool.false_eq_true, if_false, hp1]
                    exact hdisj _ (by simp) (by intro ev h; simp at h; subst h; rfl) (by simp)
                  | ok vnc_link =>
                    cases hp2 : env.get_preview_link sandbox 8080 with
                    | error e =>
                      simp only [SandboxToolsBase._ensure_sandbox, hc, hq, hid, hsid, hg,
                        if_neg hsid, hup, Bool.false_eq_true, if_false, hp1, hp2]
                      refine hdisj _ (by simp) ?_ (by simp)
                      intro ev h
                      simp only [List.mem_cons, List.not_mem_nil, or_false] at h
                      rcases h with rfl | rfl <;> rfl
                    | ok website_link =>
                      simp only [SandboxToolsBase._ensure_sandbox, hc, hq, hid, hsid, hg,
                        if_neg hsid, hup, Bool.false_eq_true, if_false, hp1, hp2]
                      refine hdisj _ (by simp) ?_ (by simp)
                      intro ev h
                      simp only [List.mem_cons, List.not_mem_nil, or_false] at h
                      rcases h with rfl | rfl | rfl <;> rfl

/-- C8: failures of the provider or store propagate unchanged — the very
error value returned by the failing operation is the error the function
returns — and no external call is retried: every trace is duplicate-free,
and after a failing operation no further call appears in the trace. -/
theorem C8_failures_propagate_without_retry (env : Env) (sandbox_id : String)
    (g : GlobalState) (st : ToolState) (sb : Sandbox) :
    ((get_or_start_sandbox env sandbox_id).2.Nodup
     ∧ (start_supervisord_session env sb).2.Nodup
     ∧ (SandboxToolsBase._ensure_sandbox env g st).trace.Nodup)
    ∧ (∀ e, env.get_current_sandbox sandbox_id 0 = .error e →
        get_or_start_sandbox env sandbox_id =
          (.error e, [.getCurrentSandbox sandbox_id 0]))
    ∧ (∀ sbx e, env.get_current_sandbox sandbox_id 0 = .ok sbx →
        needsStart sbx = true → env.start sbx = .error e →
        get_or_start_sandbox env sandbox_id =
          (.error e, [.getCurrentSandbox sandbox_id 0, .startSandbox sbx]))
    ∧ (∀ sbx e, env.get_current_sandbox sandbox_id 0 = .ok sbx →
        needsStart sbx = true → env.start sbx = .ok () →
        env.get_current_sandbox sandbox_id 1 = .error e →
        get_or_start_sandbox env sandbox_id =
          (.error e, [.getCurrentSandbox sandbox_id 0, .startSandbox sbx,
                      .getCurrentSandbox sandbox_id 1]))
    ∧ (∀ e, env.create_session sb supervisordSessionId = .error e →
        start_supervisord_session env sb =
          (.error e, [.createSession sb supervisordSessionId]))
    ∧ (∀ e, env.create_session sb supervisordSessionId = .ok () →
        env.execute_session_command sb supervisordSessionId
            ⟨supervisordCommand, true⟩ = .error e →
        start_supervisord_session env sb =
          (.error e,
            [.createSession sb supervisordSessionId,
             .executeSessionCommand sb supervisordSessionId
               ⟨supervisordCommand, true⟩]))
    ∧ (st._sandbox = none →
        (∀ e, env.query_projects st.project_id = .error e →
          SandboxToolsBase._ensure_sandbox env g st =
            ⟨.error e, st, g, [.queryProjects st.project_id]⟩)
        ∧ (∀ project_data rest sid e tr,
            env.query_projects st.project_id = .ok (project_data :: rest) →
            (project_data.sandbox.getD emptySandboxInfo).id = some sid →
            sid ≠ "" →
            get_or_start_sandbox env sid = (.error e, tr) →
            (SandboxToolsBase._ensure_sandbox env g st).result = .error e)
        ∧ (∀ project_data rest sid e sbx tr,
            env.query_projects st.project_id = .ok (project_data :: rest) →
            (project_data.sandbox.getD emptySandboxInfo).id = some sid →
            sid ≠ "" →
            get_or_start_sandbox env sid = (.ok sbx, tr) →
            g.urls_printed = false →
            env.get_preview_link sbx 6080 = .error e →
            (SandboxToolsBase._ensure_sandbox env g st).result = .error e)
        ∧ (∀ project_data rest sid e sbx tr vnc_link,
            env.query_projects st.project_id = .ok (project_data :: rest) →
            (project_data.sandbox.getD emptySandboxInfo).id = some sid →
            sid ≠ "" →
            get_or_start_sandbox env sid = (.ok sbx, tr) →
            g.urls_printed = false →
            env.get_preview_link sbx 6080 = .ok vnc_link →
            env.get_preview_link sbx 8080 = .error e →
            (SandboxToolsBase._ensure_sandbox env g st).result = .error e)) := by
  refine ⟨⟨get_or_start_trace_nodup env sandbox_id, supervisord_trace_nodup env sb,
    ensure_trace_nodup env g st⟩, ?_, ?_, ?_, ?_, ?_, ?_⟩
  · intro e he
    simp only [get_or_start_sandbox, he]
  · intro sbx e h0 hns h1
    simp [get_or_start_sandbox, h0, hns, h1]
  · intro sbx e h0 hns h1 h2
    simp [get_or_start_sandbox, h0, hns, h1, h2]
  · intro e he
    simp only [start_supervisord_session, he]
  · intro e hcs he
    simp only [start_supervisord_session, hcs, he]
  · intro hnone
    refine ⟨?_, ?_, ?_, ?_⟩
    · intro e hq
      simp [SandboxToolsBase._ensure_sandbox, hnone, hq]
    · intro project_data rest sid e tr hq hid hsid hg
      simp [SandboxToolsBase._ensure_sandbox, hnone, hq, hid, hsid, hg]
    · intro project_data rest sid e sbx tr hq hid hsid hg hup hp1
      simp [SandboxToolsBase._ensure_sandbox, hnone, hq, hid, hsid, hg, hup, hp1]
    · intro project_data rest sid e sbx tr vnc_link hq hid hsid hg hup hp1 hp2
      simp [SandboxToolsBase._ensure_sandbox, hnone, hq, hid, hsid, hg, hup, hp1, hp2]

/-- Witness for C8 at an environment whose every operation fails with a
distinct payload: each function returns exactly the payload of its first
failing call, with the trace stopping there. -/
theorem C8_witness :
    (get_or_start_sandbox envFail "sb-1" =
        (.error (.providerError 10), [.getCurrentSandbox "sb-1" 0]))
    ∧ (start_supervisord_session envFail ⟨"sb-1", ⟨.active⟩⟩ =
        (.error (.providerError 30),
          [.createSession ⟨"sb-1", ⟨.active⟩⟩ supervisordSessionId]))
    ∧ (SandboxToolsBase._ensure_sandbox envFail initGlobal
          (SandboxToolsBase.init "p1") =
        ⟨.error (.providerError 60), SandboxToolsBase.init "p1", initGlobal,
          [.queryProjects "p1"]⟩) :=
  ⟨(C8_failures_propagate_without_retry envFail "sb-1" initGlobal
      (SandboxToolsBase.init "p1") ⟨"sb-1", ⟨.active⟩⟩).2.1 (.providerError 10) rfl,
   (C8_failures_propagate_without_retry envFail "sb-1" initGlobal
      (SandboxToolsBase.init "p1") ⟨"sb-1", ⟨.active⟩⟩).2.2.2.2.1 (.providerError 30) rfl,
   ((C8_failures_propagate_without_retry envFail "sb-1" initGlobal
      (SandboxToolsBase.init "p1") ⟨"sb-1", ⟨.active⟩⟩).2.2.2.2.2.2 rfl).1
      (.providerError 60) rfl⟩

end SandboxSpec
